import Mathlib

/-!
Verification of the simasapp repository (role-based school journal app):
a shallow embedding of the client-side synchronization controller
(src/src/App.tsx), the serverless request handlers for users, journals
and login (src/api/users.ts, src/api/journals.ts, src/unnamed/part_003
and part_004), and the browser-local storage helpers
(src/src/utils/storage.ts, src/unnamed/part_000), together with proofs
about the refresh, mutation, login and storage behaviour.
-/

namespace Simas

/-- A user record as stored in the remote `users` table and used by the
client.  The role is the string stored in the `role` column (one of
STUDENT, TEACHER, PARENT, ADMIN); `nisn`, `nip` and `nik` are the
role-specific login identifier columns consulted by the login handler.
The `types.ts` file itself is not under src/, so the field list is taken
from the columns the handlers access and the spec data model. -/
structure User where
  id : String
  name : String
  role : String
  nisn : String
  nip : String
  nik : String
  password : String
  avatar : String
deriving DecidableEq, Repr

/-- A journal entry as stored in the remote `journals` table:
owning student, date, category, free text and optional teacher
feedback (field list from the handlers and the spec data model). -/
structure JournalEntry where
  id : String
  studentId : String
  date : String
  category : String
  content : String
  feedback : Option String
deriving DecidableEq, Repr

/-- The client-side state owned by the App component
(src/src/App.tsx): the canonical `users` and `journalEntries`
collections, the authenticated user, the error banner and the loading
flag.  The settings slice (journal categories, attendance window,
school name, theme) is persisted separately and is not touched by the
properties below. -/
structure AppState where
  users : List User
  journals : List JournalEntry
  currentUser : Option User
  error : Option String
  isLoading : Bool
deriving DecidableEq, Repr

/-- Outcome of one `fetch` call together with its body decoding, as
observed by `fetchData`: the promise may reject (network error), the
response may have a non-ok status, the `json()` call may reject, or a
payload is decoded. -/
inductive FetchOutcome (α : Type) where
  | networkError
  | httpError
  | decodeError
  | success (payload : α)
deriving DecidableEq, Repr

/-- `fetchData` from src/src/App.tsx (lines 27-61): sets the loading
flag when the users collection is still empty, clears the error, then
awaits both fetches via Promise.all.  Only when both responses are ok
and both bodies decode are `users` and `journalEntries` replaced — in
the same synchronous section, with no await between the two set calls.
Any rejection (network, non-ok status, decode) lands in the catch
branch, which sets the error banner and leaves both collections
untouched.  The finally branch clears the loading flag. -/
def fetchData (s : AppState) (uo : FetchOutcome (List User))
    (jo : FetchOutcome (List JournalEntry)) : AppState :=
  let s1 : AppState :=
    { s with
      isLoading := if s.users.length = 0 then true else s.isLoading
      error := none }
  match uo, jo with
  | FetchOutcome.success us, FetchOutcome.success js =>
      { s1 with users := us, journals := js, isLoading := false }
  | _, _ =>
      { s1 with
        error := some "Gagal terhubung ke server. Silakan coba lagi nanti."
        isLoading := false }

/-- One completed `fetchData` cycle in a trace of possibly overlapping
refreshes.  `issueIndex` records when the refresh was issued; the code
never reads it (there is no sequencing of in-flight refreshes), which
is exactly what the regression-race property is about.  Because the two
set calls of a cycle run in one synchronous section, a completed cycle
applies atomically, so overlapping refreshes are modelled as a list of
completed cycles in completion order. -/
structure RefreshEvent where
  issueIndex : Nat
  usersOutcome : FetchOutcome (List User)
  journalsOutcome : FetchOutcome (List JournalEntry)

/-- Apply a list of completed refresh cycles, in completion order. -/
def runRefreshes (s : AppState) : List RefreshEvent → AppState
  | [] => s
  | e :: es => runRefreshes (fetchData s e.usersOutcome e.journalsOutcome) es

/-- The self-reconciliation effect of src/src/App.tsx (lines 99-111):
whenever the users collection changes while someone is logged in, look
the authenticated user up by id; if found and the JSON serialisations
differ, replace the cached identity; if found and equal, keep it; if
not found, log out (currentUser becomes null). -/
def reconcileSelf (users : List User) (currentUser : Option User) : Option User :=
  match currentUser with
  | none => none
  | some c =>
    match users.find? (fun u => u.id == c.id) with
    | some u => if u = c then some c else some u
    | none => none

/-- The remote store behind the serverless handlers: the `users` and
`journals` tables. -/
structure ServerState where
  users : List User
  journals : List JournalEntry
deriving DecidableEq, Repr

/-- Modelled from the spec: an admin member of the fixed initial
roster seeded by the users GET handler (the constants file holding
USERS is not under src/). -/
def seedAdmin : User :=
  { id := "u-admin", name := "Admin Sekolah", role := "ADMIN",
    nisn := "", nip := "196800001", nik := "", password := "admin123",
    avatar := "avatar-admin" }

/-- Modelled from the spec: a teacher member of the fixed initial
roster. -/
def seedTeacher : User :=
  { id := "u-guru", name := "Budi Guru", role := "TEACHER",
    nisn := "", nip := "197700002", nik := "", password := "guru123",
    avatar := "avatar-guru" }

/-- Modelled from the spec: a student member of the fixed initial
roster, carrying the identifier and (case-insensitively stored)
password of the spec's login scenario. -/
def seedStudent : User :=
  { id := "u-siswa", name := "Ani Siswa", role := "STUDENT",
    nisn := "123456", nip := "", nik := "", password := "abc123",
    avatar := "avatar-siswa" }

/-- Modelled from the spec: the fixed initial roster `USERS` exported
by src/constants (imported by src/api/users.ts as INITIAL_USERS); the
constants file itself is not under src/, the spec only says a fixed
initial roster is seeded, so a representative concrete roster is used —
none of the proofs below depend on its contents. -/
def INITIAL_USERS : List User := [seedAdmin, seedTeacher, seedStudent]

/-- The name ordering used by the users GET handler
(`.order('name', { ascending: true })`). -/
def nameLe (a b : User) : Prop := a.name ≤ b.name

instance : DecidableRel nameLe := fun a b => inferInstanceAs (Decidable (a.name ≤ b.name))

instance : IsTotal User nameLe := ⟨fun a b => le_total a.name b.name⟩

instance : IsTrans User nameLe := ⟨fun _ _ _ h h2 => le_trans h h2⟩

/-- Sorting by name ascending, modelling the supabase order-by on the
users table. -/
def sortByName (l : List User) : List User := List.insertionSort nameLe l

/-- The date ordering used by the journals GET handler
(`.order('date', { ascending: false })`): later dates first. -/
def dateGe (a b : JournalEntry) : Prop := b.date ≤ a.date

instance : DecidableRel dateGe := fun a b => inferInstanceAs (Decidable (b.date ≤ a.date))

instance : IsTotal JournalEntry dateGe := ⟨fun a b => le_total b.date a.date⟩

instance : IsTrans JournalEntry dateGe := ⟨fun _ _ _ h h2 => le_trans h2 h⟩

/-- Sorting by date descending, modelling the supabase order-by on the
journals table. -/
def sortByDateDesc (l : List JournalEntry) : List JournalEntry :=
  List.insertionSort dateGe l

/-- The GET branch of src/api/users.ts (lines 27-59): count the rows,
insert INITIAL_USERS when the table is empty, then select all rows
ordered by name ascending and answer 200 with them.  Result: the table
after the request, the HTTP status, and the response body. -/
def getUsersHandler (store : List User) : List User × Nat × List User :=
  let store1 := if store.length = 0 then store ++ INITIAL_USERS else store
  (store1, 200, sortByName store1)

/-- The GET branch of the journals handler (src/api/journals.ts lines
18-29): select all journal rows ordered by date descending, status
200. -/
def getJournalsHandler (store : List JournalEntry) : Nat × List JournalEntry :=
  (200, sortByDateDesc store)

/-- The body of a PUT /api/users request: an `id` that may be missing
(`none` models an absent field, `some ""` an empty one — both are falsy
in the handler's check) plus the updatable columns. -/
structure PutUserBody where
  id : Option String
  name : String
  role : String
  nisn : String
  nip : String
  nik : String
  password : String
  avatar : String
deriving DecidableEq, Repr

/-- JS falsiness of the destructured `id` field. -/
def falsyId : Option String → Bool
  | none => true
  | some s => s == ""

/-- Result of a users PUT request: a plain status/message response or
a 200 with the updated record. -/
inductive PutResult where
  | response (status : Nat) (message : String)
  | okUser (u : User)
deriving DecidableEq, Repr

/-- The row produced by `update(updateData).eq('id', uid)` on a row
that matches: every column except `id` is overwritten. -/
def applyUpdate (b : PutUserBody) (uid : String) (u : User) : User :=
  if u.id == uid then
    { id := u.id, name := b.name, role := b.role, nisn := b.nisn,
      nip := b.nip, nik := b.nik, password := b.password, avatar := b.avatar }
  else u

/-- The PUT branch of src/api/users.ts (lines 77-99): destructure the
id; if it is falsy answer 400 with the exact message and touch nothing;
otherwise update the matching row and answer 200 with it, or 404 when
no row matches. -/
def putUserHandler (store : List User) (body : PutUserBody) :
    List User × PutResult :=
  if falsyId body.id then
    (store, PutResult.response 400 "Bad request: Missing user ID.")
  else
    let uid := body.id.getD ""
    match store.find? (fun u => u.id == uid) with
    | some u => (store.map (applyUpdate body uid), PutResult.okUser (applyUpdate body uid u))
    | none => (store, PutResult.response 404 "User not found")

/-- The reset branch of the users DELETE handler (src/api/users.ts
lines 102-116, action=reset_application_data): it runs
delete().neq('id', '0') on the journals table and then on the users
table, deleting every row whose id differs from the string 0 — a row
whose id is exactly that string survives the reset. -/
def resetServer (srv : ServerState) : ServerState :=
  { users := srv.users.filter (fun u => u.id == "0"),
    journals := srv.journals.filter (fun j => j.id == "0") }

/-- Creating a journal row on the server (the POST branch of the
journals handler): the row is inserted into the table. -/
def addJournalServer (srv : ServerState) (j : JournalEntry) : ServerState :=
  { srv with journals := srv.journals ++ [j] }

/-- The role-specific identifier columns consulted by the login
handler. -/
inductive Column where
  | nisn
  | nip
  | nik
deriving DecidableEq, Repr

/-- The switch on the claimed role in the login handler
(src/unnamed/part_004 lines 30-37): STUDENT looks up nisn, TEACHER and
ADMIN look up nip, PARENT looks up nik; any other role string is an
invalid-role 400. -/
def roleColumn : String → Option Column
  | "STUDENT" => some Column.nisn
  | "TEACHER" => some Column.nip
  | "PARENT" => some Column.nik
  | "ADMIN" => some Column.nip
  | _ => none

/-- Read the column of a user row selected by `roleColumn`. -/
def columnValue (u : User) : Column → String
  | Column.nisn => u.nisn
  | Column.nip => u.nip
  | Column.nik => u.nik

/-- JavaScript's toLowerCase as applied by the login handler to both
passwords before comparing. -/
def lowerString (s : String) : String := String.mk (s.data.map Char.toLower)

/-- Result of a POST /api/login request. -/
inductive LoginResult where
  | badRequest (msg : String)
  | unauthorized
  | ok (u : User)
deriving DecidableEq, Repr

/-- The login handler (src/unnamed/part_004 lines 16-68, identical
logic in part_003): reject when any of role/identifier/password is
falsy (400); map the role to its identifier column, rejecting unknown
roles (400); fetch at most one user row whose `role` column equals the
claimed role and whose identifier column equals the submitted
identifier; compare the stored and submitted passwords after
lowercasing both in code, answering 200 with the full user row on a
match and 401 otherwise; answer 401 when no row matches. -/
def login (store : List User) (role identifier password : String) : LoginResult :=
  if role == "" || identifier == "" || password == "" then
    LoginResult.badRequest "Role, identifier, and password are required"
  else
    match roleColumn role with
    | none => LoginResult.badRequest "Invalid role specified"
    | some col =>
      match store.find? (fun u => u.role == role && columnValue u col == identifier) with
      | some u =>
        if lowerString u.password == lowerString password then LoginResult.ok u
        else LoginResult.unauthorized
      | none => LoginResult.unauthorized

/-- The common shape of the six mutation handlers of src/src/App.tsx
(lines 130-180, handleAddJournal / handleUpdateJournal /
handleDeleteJournal / handleAddUser / handleUpdateUser /
handleDeleteUser): send the request; if the response is not ok, throw
the handler's error message — before any state change, so the local
collections are exactly the prior ones; otherwise await a full
`fetchData` refetch (whose own outcome is the two fetch outcomes) and
only then resolve.  The first component records resolution
(`Except.ok`) or the thrown error; the second is the App state when
the call settles. -/
def handleMutation (s : AppState) (respOk : Bool)
    (uo : FetchOutcome (List User)) (jo : FetchOutcome (List JournalEntry))
    (errMsg : String) : Except String Unit × AppState :=
  if respOk then (Except.ok (), fetchData s uo jo)
  else (Except.error errMsg, s)

/-- handleAddJournal (src/src/App.tsx lines 130-138). -/
def handleAddJournal (s : AppState) (respOk : Bool)
    (uo : FetchOutcome (List User)) (jo : FetchOutcome (List JournalEntry)) :
    Except String Unit × AppState :=
  handleMutation s respOk uo jo "Gagal menambahkan jurnal."

/-- handleUpdateJournal (src/src/App.tsx lines 140-148). -/
def handleUpdateJournal (s : AppState) (respOk : Bool)
    (uo : FetchOutcome (List User)) (jo : FetchOutcome (List JournalEntry)) :
    Except String Unit × AppState :=
  handleMutation s respOk uo jo "Gagal memperbarui jurnal."

/-- handleDeleteJournal (src/src/App.tsx lines 150-154). -/
def handleDeleteJournal (s : AppState) (respOk : Bool)
    (uo : FetchOutcome (List User)) (jo : FetchOutcome (List JournalEntry)) :
    Except String Unit × AppState :=
  handleMutation s respOk uo jo "Gagal menghapus jurnal."

/-- handleAddUser (src/src/App.tsx lines 156-164). -/
def handleAddUser (s : AppState) (respOk : Bool)
    (uo : FetchOutcome (List User)) (jo : FetchOutcome (List JournalEntry)) :
    Except String Unit × AppState :=
  handleMutation s respOk uo jo "Gagal menambahkan pengguna."

/-- handleUpdateUser (src/src/App.tsx lines 166-174). -/
def handleUpdateUser (s : AppState) (respOk : Bool)
    (uo : FetchOutcome (List User)) (jo : FetchOutcome (List JournalEntry)) :
    Except String Unit × AppState :=
  handleMutation s respOk uo jo "Gagal memperbarui pengguna."

/-- handleDeleteUser (src/src/App.tsx lines 176-180). -/
def handleDeleteUser (s : AppState) (respOk : Bool)
    (uo : FetchOutcome (List User)) (jo : FetchOutcome (List JournalEntry)) :
    Except String Unit × AppState :=
  handleMutation s respOk uo jo "Gagal menghapus pengguna."

/-- handleResetData (src/src/App.tsx lines 182-186): send the reset
request; if the response is not ok, throw without refetching;
otherwise await a full `fetchData`. -/
def handleResetData (s : AppState) (respOk : Bool)
    (uo : FetchOutcome (List User)) (jo : FetchOutcome (List JournalEntry)) :
    Except String Unit × AppState :=
  if respOk then (Except.ok (), fetchData s uo jo)
  else (Except.error "Gagal mereset data aplikasi.", s)

/-- The minimal session identity persisted client-side
(src/src/types StoredUser, fields per the spec data model). -/
structure StoredUser where
  id : String
  name : String
  role : String
  avatar : String
deriving DecidableEq, Repr

/-- What a browser-local storage read can yield, as observed by the
storage helpers: no value under the key, the storage access itself
raising, a stored string that fails to JSON-parse, or a parsed
value. -/
inductive StorageRead (α : Type) where
  | absent
  | accessError
  | corrupt
  | found (a : α)
deriving DecidableEq, Repr

/-- getStoredUser (src/src/utils/storage.ts lines 9-20): getItem and
JSON.parse inside a try/catch — null is returned when the key is
absent, and the catch turns a storage-access failure or a parse
failure into null as well, so the function is total. -/
def getStoredUser (r : StorageRead StoredUser) : Option StoredUser :=
  match r with
  | StorageRead.absent => none
  | StorageRead.accessError => none
  | StorageRead.corrupt => none
  | StorageRead.found u => some u

/-- loadState (src/unnamed/part_000 lines 4-17): read and parse the
key inside a try/catch; when the key is absent, save the default back
and return it; a storage-access or parse failure falls into the catch
and returns the default without saving.  The second component is the
value written back to storage, when any. -/
def loadState {α : Type} (r : StorageRead α) (defaultValue : α) : α × Option α :=
  match r with
  | StorageRead.absent => (defaultValue, some defaultValue)
  | StorageRead.accessError => (defaultValue, none)
  | StorageRead.corrupt => (defaultValue, none)
  | StorageRead.found a => (a, none)

/-- Helper: a trace of completed refresh cycles leaves the
users/journals pair at its initial value or at the payload pair of a
single successful cycle of the trace — never a mix of two cycles. -/
theorem runRefreshes_pair_from_one_cycle (s : AppState) (es : List RefreshEvent) :
    ((runRefreshes s es).users, (runRefreshes s es).journals) = (s.users, s.journals)
    ∨ ∃ e, e ∈ es
        ∧ e.usersOutcome = FetchOutcome.success (runRefreshes s es).users
        ∧ e.journalsOutcome = FetchOutcome.success (runRefreshes s es).journals := by
  induction es generalizing s with
  | nil => exact Or.inl rfl
  | cons e es ih =>
    rcases ih (fetchData s e.usersOutcome e.journalsOutcome) with h | ⟨e2, he2, hu, hj⟩
    · rcases e with ⟨i, uo, jo⟩
      cases uo with
      | success us =>
        cases jo with
        | success js =>
          right
          have h1 : (runRefreshes s (⟨i, FetchOutcome.success us, FetchOutcome.success js⟩ :: es)).users = us := by
            simpa using congrArg Prod.fst h
          have h2 : (runRefreshes s (⟨i, FetchOutcome.success us, FetchOutcome.success js⟩ :: es)).journals = js := by
            simpa using congrArg Prod.snd h
          exact ⟨⟨i, FetchOutcome.success us, FetchOutcome.success js⟩,
            List.mem_cons_self _ _, by rw [h1], by rw [h2]⟩
        | networkError => exact Or.inl h
        | httpError => exact Or.inl h
        | decodeError => exact Or.inl h
      | networkError => cases jo <;> exact Or.inl h
      | httpError => cases jo <;> exact Or.inl h
      | decodeError => cases jo <;> exact Or.inl h
    · exact Or.inr ⟨e2, List.mem_cons_of_mem _ he2, hu, hj⟩

/-- C1: a refresh replaces the users and journals collections together
with the payloads of its own cycle when both fetches succeed, and
leaves both collections exactly as they were when either fetch fails
(network error, non-ok status or decode failure); consequently, over
any trace of completed refresh cycles the resulting pair is either the
initial one or the payload pair of one single successful cycle — never
a mix of two cycles. -/
theorem refresh_replaces_both_or_neither :
    ∀ (s : AppState) (uo : FetchOutcome (List User)) (jo : FetchOutcome (List JournalEntry)),
    (((fetchData s uo jo).users, (fetchData s uo jo).journals) =
      match uo, jo with
      | FetchOutcome.success us, FetchOutcome.success js => (us, js)
      | _, _ => (s.users, s.journals))
    ∧ ∀ es : List RefreshEvent,
      ((runRefreshes s es).users, (runRefreshes s es).journals) = (s.users, s.journals)
      ∨ ∃ e, e ∈ es
          ∧ e.usersOutcome = FetchOutcome.success (runRefreshes s es).users
          ∧ e.journalsOutcome = FetchOutcome.success (runRefreshes s es).journals := by
  intro s uo jo
  constructor
  · cases uo <;> cases jo <;> rfl
  · intro es
    exact runRefreshes_pair_from_one_cycle s es

/-- C6 counterexample: two refreshes are issued (issue indices 0 and
1) and the second-issued one completes first; the later-arriving
first-issued payload overwrites the newer data, so the final users
collection holds the stale payload, contradicting the claim that the
newer refresh's data survives. -/
theorem stale_refresh_overwrites_newer :
    (runRefreshes
      { users := [], journals := [], currentUser := none, error := none, isLoading := true }
      [{ issueIndex := 1,
         usersOutcome := FetchOutcome.success
           [{ id := "uB", name := "Baru", role := "STUDENT", nisn := "2", nip := "",
              nik := "", password := "p", avatar := "a" }],
         journalsOutcome := FetchOutcome.success [] },
       { issueIndex := 0,
         usersOutcome := FetchOutcome.success
           [{ id := "uA", name := "Lama", role := "STUDENT", nisn := "1", nip := "",
              nik := "", password := "p", avatar := "a" }],
         journalsOutcome := FetchOutcome.success [] }]).users
      = [{ id := "uA", name := "Lama", role := "STUDENT", nisn := "1", nip := "",
           nik := "", password := "p", avatar := "a" }]
    ∧ (runRefreshes
      { users := [], journals := [], currentUser := none, error := none, isLoading := true }
      [{ issueIndex := 1,
         usersOutcome := FetchOutcome.success
           [{ id := "uB", name := "Baru", role := "STUDENT", nisn := "2", nip := "",
              nik := "", password := "p", avatar := "a" }],
         journalsOutcome := FetchOutcome.success [] },
       { issueIndex := 0,
         usersOutcome := FetchOutcome.success
           [{ id := "uA", name := "Lama", role := "STUDENT", nisn := "1", nip := "",
              nik := "", password := "p", avatar := "a" }],
         journalsOutcome := FetchOutcome.success [] }]).users
      ≠ [{ id := "uB", name := "Baru", role := "STUDENT", nisn := "2", nip := "",
           nik := "", password := "p", avatar := "a" }] := by
  constructor
  · rfl
  · decide

/-- C6 amended: the code applies refresh results purely in completion
order with no sequencing by issue time — whatever completed before, a
successful refresh cycle that completes last installs its own
payloads, for every issue index (in particular one smaller than all
earlier-completed cycles): last completion wins, so a stale
first-issued refresh that arrives last does overwrite newer data. -/
theorem refresh_last_completion_wins :
    ∀ (s : AppState) (pre : List RefreshEvent) (i : Nat)
      (us : List User) (js : List JournalEntry),
    (runRefreshes s
        (pre ++ [{ issueIndex := i,
                   usersOutcome := FetchOutcome.success us,
                   journalsOutcome := FetchOutcome.success js }])).users = us
    ∧ (runRefreshes s
        (pre ++ [{ issueIndex := i,
                   usersOutcome := FetchOutcome.success us,
                   journalsOutcome := FetchOutcome.success js }])).journals = js := by
  intro s pre i us js
  induction pre generalizing s with
  | nil => exact ⟨rfl, rfl⟩
  | cons e pre ih => exact ih (fetchData s e.usersOutcome e.journalsOutcome)

/-- C3: the self-reconciliation effect never touches an unauthenticated
session, and for an authenticated user c it returns exactly the id
lookup in the new users collection: when the lookup finds a record u
with c's id it returns some u (if u is deep-unequal to c this replaces
the cached identity, and if u equals c the result some u = some c keeps
it), and when the lookup finds nothing it returns none — the forced
logout into the Unauthenticated state. -/
theorem reconcileSelf_is_id_lookup :
    ∀ (users : List User) (c : User),
    reconcileSelf users none = none
    ∧ reconcileSelf users (some c) = users.find? (fun u => u.id == c.id) := by
  intro users c
  refine ⟨rfl, ?_⟩
  unfold reconcileSelf
  cases h : users.find? (fun u => u.id == c.id) with
  | none => simp [h]
  | some u =>
    by_cases hc : u = c
    · simp [h, hc]
    · simp [h, hc]

/-- C7: for every GET /api/users request, the handler answers 200; the
store after the request is the seeded initial roster exactly when the
store was empty and is otherwise unchanged; and the response body is a
permutation of the resulting store, sorted by name ascending. -/
theorem getUsers_seeds_then_sorts :
    ∀ store : List User,
    (getUsersHandler store).2.1 = 200
    ∧ (getUsersHandler store).1 = (if store.isEmpty then INITIAL_USERS else store)
    ∧ List.Perm (getUsersHandler store).2.2 (getUsersHandler store).1
    ∧ List.Sorted nameLe (getUsersHandler store).2.2 := by
  intro store
  refine ⟨rfl, ?_, ?_, ?_⟩
  · cases store <;> rfl
  · exact List.perm_insertionSort nameLe _
  · exact List.sorted_insertionSort nameLe _

/-- C8: a PUT /api/users request whose body has no id field, or a
falsy (empty) one, is answered 400 with exactly the message
Bad request: Missing user ID., and the users store is not updated. -/
theorem putUser_missing_id_rejected :
    ∀ (store : List User) (name role nisn nip nik password avatar : String),
    putUserHandler store
        { id := none, name := name, role := role, nisn := nisn, nip := nip,
          nik := nik, password := password, avatar := avatar }
      = (store, PutResult.response 400 "Bad request: Missing user ID.")
    ∧ putUserHandler store
        { id := some "", name := name, role := role, nisn := nisn, nip := nip,
          nik := nik, password := password, avatar := avatar }
      = (store, PutResult.response 400 "Bad request: Missing user ID.") := by
  intro store name role nisn nip nik password avatar
  exact ⟨rfl, rfl⟩

/-- C10: the storage helpers are total on every state of the
browser-local store — getStoredUser yields null when no value is
stored under the session key, when the storage access raises, and when
the stored value fails to parse, and yields the parsed user otherwise;
loadState yields the supplied default (writing it back only in the
key-absent case) on every read or parse failure, and the stored value
otherwise. -/
theorem storage_reads_total :
    ∀ (u : StoredUser),
    getStoredUser StorageRead.absent = none
    ∧ getStoredUser StorageRead.accessError = none
    ∧ getStoredUser StorageRead.corrupt = none
    ∧ getStoredUser (StorageRead.found u) = some u
    ∧ ∀ (α : Type) (d a : α),
        loadState StorageRead.absent d = (d, some d)
        ∧ loadState StorageRead.accessError d = (d, none)
        ∧ loadState StorageRead.corrupt d = (d, none)
        ∧ loadState (StorageRead.found a) d = (a, none) := by
  intro u
  exact ⟨rfl, rfl, rfl, rfl, fun α d a => ⟨rfl, rfl, rfl, rfl⟩⟩

/-- C2 counterexample: a journal-add whose remote request succeeds (the
entry is created on the server) but whose follow-up refetch fails: the
handler still resolves successfully, yet the created entry is not in
the local journals collection — the mutation's effect is not reflected
in local state before the call resolves. -/
theorem mutation_resolves_without_reflecting :
    (handleAddJournal
        { users := [], journals := [], currentUser := none, error := none, isLoading := false }
        true FetchOutcome.networkError FetchOutcome.networkError).1 = Except.ok ()
    ∧ ({ id := "j1", studentId := "u-siswa", date := "2024-01-01", category := "Sakit",
         content := "demam", feedback := none } : JournalEntry)
        ∈ (addJournalServer { users := [], journals := [] }
            { id := "j1", studentId := "u-siswa", date := "2024-01-01", category := "Sakit",
              content := "demam", feedback := none }).journals
    ∧ ({ id := "j1", studentId := "u-siswa", date := "2024-01-01", category := "Sakit",
         content := "demam", feedback := none } : JournalEntry)
        ∉ (handleAddJournal
            { users := [], journals := [], currentUser := none, error := none, isLoading := false }
            true FetchOutcome.networkError FetchOutcome.networkError).2.journals := by
  refine ⟨rfl, by decide, by decide⟩

/-- C2 amended: every mutation handler throws its error message and
leaves the App state — in particular the users and journals
collections — exactly as it was when the remote response is not ok;
when the remote response is ok it awaits a full refetch before
resolving, so the settled state is the refetch's outcome: when that
refetch succeeds its payload replaces local state (for a journal add,
the refetched journals of the post-mutation server contain the created
entry), but when the refetch fails the handler still resolves with the
collections unchanged, so the mutation is then not yet reflected. -/
theorem mutation_fail_unchanged_success_refetches :
    ∀ (s : AppState) (uo : FetchOutcome (List User)) (jo : FetchOutcome (List JournalEntry))
      (msg : String) (srv : ServerState) (j : JournalEntry) (us : List User),
    handleMutation s false uo jo msg = (Except.error msg, s)
    ∧ handleMutation s true uo jo msg = (Except.ok (), fetchData s uo jo)
    ∧ j ∈ (addJournalServer srv j).journals
    ∧ j ∈ (handleMutation s true (FetchOutcome.success us)
            (FetchOutcome.success (sortByDateDesc (addJournalServer srv j).journals))
            msg).2.journals := by
  intro s uo jo msg srv j us
  refine ⟨rfl, rfl, by simp [addJournalServer], ?_⟩
  show j ∈ sortByDateDesc (srv.journals ++ [j])
  exact (List.perm_insertionSort dateGe _).mem_iff.mpr (by simp)

/-- C4 counterexample: a request whose role and identifier match the
stored student and whose submitted password is empty: the lowercased
passwords differ, so the claim demands 401, but the handler's falsiness
check answers 400 before any lookup. -/
theorem login_empty_password_not_unauthorized :
    login INITIAL_USERS "STUDENT" "123456" ""
      = LoginResult.badRequest "Role, identifier, and password are required"
    ∧ login INITIAL_USERS "STUDENT" "123456" "" ≠ LoginResult.unauthorized
    ∧ List.find? (fun x => x.role == "STUDENT" && columnValue x Column.nisn == "123456")
        INITIAL_USERS = some seedStudent
    ∧ lowerString seedStudent.password ≠ lowerString "" := by
  refine ⟨rfl, by decide, by decide, by decide⟩

/-- C4 amended: for every login request with non-empty role, identifier
and password whose role maps to an identifier column and whose
role/identifier lookup finds a stored user, the handler answers 200
with that full user record exactly when the stored and submitted
passwords are equal after lowercasing both, and 401 exactly otherwise
(requests with an empty field are answered 400 instead). -/
theorem login_password_case_insensitive :
    ∀ (store : List User) (role identifier password : String) (col : Column) (u : User),
    roleColumn role = some col →
    store.find? (fun x => x.role == role && columnValue x col == identifier) = some u →
    identifier ≠ "" → password ≠ "" →
    (login store role identifier password = LoginResult.ok u
      ↔ lowerString u.password = lowerString password)
    ∧ (login store role identifier password = LoginResult.unauthorized
      ↔ lowerString u.password ≠ lowerString password) := by
  intro store role identifier password col u hcol hfind hid hpw
  have hrole : role ≠ "" := by
    intro h
    rw [h] at hcol
    simp [roleColumn] at hcol
  have hcond : (role == "" || identifier == "" || password == "") = false := by
    simp [hrole, hid, hpw]
  unfold login
  rw [hcond]
  simp only [Bool.false_eq_true, if_false, hcol, hfind]
  by_cases hlp : lowerString u.password = lowerString password
  · simp [hlp]
  · simp [hlp]

/-- C4 witness: the spec scenario — login as STUDENT with identifier
123456 and submitted password Abc123 against the stored password
abc123 succeeds with the full stored record. -/
theorem login_case_insensitive_witness :
    login INITIAL_USERS "STUDENT" "123456" "Abc123" = LoginResult.ok seedStudent :=
  (login_password_case_insensitive INITIAL_USERS "STUDENT" "123456" "Abc123"
      Column.nisn seedStudent rfl (by decide) (by decide) (by decide)).1.mpr (by decide)

/-- C5 counterexample: when the reset request fails, handleResetData
throws and settles with the state untouched, although performing the
refresh with the available responses would have changed the users
collection — the refresh after the reset request is conditional on its
success, not unconditional. -/
theorem reset_failure_skips_refresh :
    handleResetData
        { users := [seedStudent], journals := [], currentUser := none,
          error := none, isLoading := false }
        false (FetchOutcome.success [seedTeacher]) (FetchOutcome.success [])
      = (Except.error "Gagal mereset data aplikasi.",
         { users := [seedStudent], journals := [], currentUser := none,
           error := none, isLoading := false })
    ∧ (fetchData
        { users := [seedStudent], journals := [], currentUser := none,
          error := none, isLoading := false }
        (FetchOutcome.success [seedTeacher]) (FetchOutcome.success [])).users
      ≠ ({ users := [seedStudent], journals := [], currentUser := none,
           error := none, isLoading := false } : AppState).users := by
  refine ⟨rfl, by decide⟩

/-- C5 amended: handleResetData performs the full refresh only when
the reset request succeeds — on a failed reset it throws and the state
is untouched; on a successful reset it awaits fetchData.  The reset
deletes every row whose id is not the string 0 from both tables, so
provided no stored row carries that id, the reset empties both tables
and the refresh against the reset backend (whose users GET seeds the
initial roster into the emptied table and whose journals GET returns
the empty table) installs exactly the seeded roster sorted by name and
an empty journal collection. -/
theorem reset_refreshes_only_on_success :
    ∀ (s : AppState) (uo : FetchOutcome (List User)) (jo : FetchOutcome (List JournalEntry))
      (srv : ServerState),
    (∀ u ∈ srv.users, u.id ≠ "0") → (∀ j ∈ srv.journals, j.id ≠ "0") →
    handleResetData s false uo jo = (Except.error "Gagal mereset data aplikasi.", s)
    ∧ handleResetData s true uo jo = (Except.ok (), fetchData s uo jo)
    ∧ (resetServer srv).users = []
    ∧ (resetServer srv).journals = []
    ∧ (getUsersHandler (resetServer srv).users).2.2 = sortByName INITIAL_USERS
    ∧ (getJournalsHandler (resetServer srv).journals).2 = []
    ∧ (handleResetData s true
        (FetchOutcome.success (getUsersHandler (resetServer srv).users).2.2)
        (FetchOutcome.success (getJournalsHandler (resetServer srv).journals).2)).2.users
      = sortByName INITIAL_USERS
    ∧ (handleResetData s true
        (FetchOutcome.success (getUsersHandler (resetServer srv).users).2.2)
        (FetchOutcome.success (getJournalsHandler (resetServer srv).journals).2)).2.journals
      = [] := by
  intro s uo jo srv hu hj
  have hus : (resetServer srv).users = [] := by
    rw [resetServer]
    simp only [List.filter_eq_nil_iff]
    intro u humem
    simp [hu u humem]
  have hjs : (resetServer srv).journals = [] := by
    rw [resetServer]
    simp only [List.filter_eq_nil_iff]
    intro j hjmem
    simp [hj j hjmem]
  refine ⟨rfl, rfl, hus, hjs, ?_, ?_, ?_, ?_⟩
  · rw [hus]
    rfl
  · rw [hjs]
    rfl
  · rw [hus, hjs]
    rfl
  · rw [hus, hjs]
    rfl

/-- C5 witness: for a concrete server whose rows all have ids other
than the string 0 (the seeded student with one journal entry), a
successful reset followed by the refresh installs the seeded roster
sorted by name and an empty journal collection. -/
theorem reset_refresh_seeded_witness :
    (handleResetData
        { users := [seedStudent], journals := [], currentUser := none,
          error := none, isLoading := false }
        true
        (FetchOutcome.success
          (getUsersHandler (resetServer
            { users := [seedStudent],
              journals := [{ id := "j1", studentId := "u-siswa", date := "2024-01-01",
                             category := "Sakit", content := "demam",
                             feedback := none }] }).users).2.2)
        (FetchOutcome.success
          (getJournalsHandler (resetServer
            { users := [seedStudent],
              journals := [{ id := "j1", studentId := "u-siswa", date := "2024-01-01",
                             category := "Sakit", content := "demam",
                             feedback := none }] }).journals).2)).2.users
      = sortByName INITIAL_USERS :=
  (reset_refreshes_only_on_success
      { users := [seedStudent], journals := [], currentUser := none,
        error := none, isLoading := false }
      FetchOutcome.networkError FetchOutcome.networkError
      { users := [seedStudent],
        journals := [{ id := "j1", studentId := "u-siswa", date := "2024-01-01",
                       category := "Sakit", content := "demam", feedback := none }] }
      (by decide) (by decide)).2.2.2.2.2.2.1

/-- C9: role consistency of authentication — whenever the login
handler answers 200 with a user record, that record's role column
equals the role claimed in the request, because the lookup filters on
both the role and the role-specific identifier column. -/
theorem login_ok_role_matches :
    ∀ (store : List User) (role identifier password : String) (u : User),
    login store role identifier password = LoginResult.ok u → u.role = role := by
  intro store role identifier password u h
  unfold login at h
  by_cases h0 : (role == "" || identifier == "" || password == "") = true
  · rw [if_pos h0] at h
    exact absurd h (by simp)
  · rw [if_neg h0] at h
    cases hcol : roleColumn role with
    | none =>
      simp only [hcol] at h
      exact absurd h (by simp)
    | some col =>
      simp only [hcol] at h
      cases hfind : store.find? (fun x => x.role == role && columnValue x col == identifier) with
      | none =>
        simp only [hfind] at h
        exact absurd h (by simp)
      | some v =>
        simp only [hfind] at h
        by_cases hlp : (lowerString v.password == lowerString password) = true
        · rw [if_pos hlp] at h
          injection h with hv
          subst hv
          have hp := List.find?_some hfind
          simp only [Bool.and_eq_true, beq_iff_eq] at hp
          exact hp.1
        · rw [if_neg hlp] at h
          exact absurd h (by simp)

/-- C9 witness: logging in as TEACHER with the seeded teacher's
credentials yields a record whose role is TEACHER. -/
theorem login_role_consistency_witness : seedTeacher.role = "TEACHER" :=
  login_ok_role_matches INITIAL_USERS "TEACHER" "197700002" "guru123" seedTeacher (by decide)

end Simas
